import Mathlib

/-!
Shallow embedding of the core logic of the recent-files plugin
(src/main.ts): the data model, the recency tracker operations of
RecentFilesListView and RecentFilesPlugin, and the exclusion policy
(shouldAddFile / pruneOmittedFiles).  The host application (vault
enumeration, persistence backend, DOM rendering) is modelled by explicit
parameters and effect flags; the JS regular-expression engine is modelled
by a parameter of type String → Option (String → Bool), where none stands
for a pattern on which the RegExp constructor throws and some test for a
successfully compiled regex together with its test method.
-/

namespace RecentFiles

/-- Mirror of the TS interface FilePath: path and basename of a file. -/
structure FilePath where
  path : String
  basename : String
deriving DecidableEq, Repr

/-- Mirror of the TS interface RecentFileInfo: path, basename and
modification time of a tracked file.  mtime is a host timestamp, modelled
as an integer. -/
structure RecentFileInfo where
  path : String
  basename : String
  mtime : Int
deriving DecidableEq, Repr

/-- Structural view of a RecentFileInfo as a FilePath, as TS structural
typing passes a RecentFileInfo where a FilePath is expected. -/
def RecentFileInfo.toFilePath (f : RecentFileInfo) : FilePath :=
  ⟨f.path, f.basename⟩

/-- Mirror of the TS interface RecentFilesData.  maxLength is number |
null in the source (DEFAULT_DATA sets it to null), modelled as Option
Int with none for null. -/
structure RecentFilesData where
  recentFiles : List RecentFileInfo
  omittedPaths : List String
  maxLength : Option Int
  openType : String
deriving DecidableEq, Repr

/-- Mirror of const defaultMaxLength = 40. -/
def defaultMaxLength : Int := 40

/-- Mirror of DEFAULT_DATA: empty list, no omitted patterns, maxLength
null, openType tab. -/
def DEFAULT_DATA : RecentFilesData :=
  { recentFiles := [], omittedPaths := [], maxLength := none, openType := "tab" }

/-- Mirror of sortFunc: the comparator handed to Array.prototype.sort,
returning -1 when the first mtime is larger, 1 when smaller, 0 on a tie. -/
def sortFunc (a b : RecentFileInfo) : Int :=
  if a.mtime > b.mtime then -1
  else if a.mtime < b.mtime then 1
  else 0

/-- Insertion step of the stable sort: place a before the first element
b with sortFunc a b ≤ 0 (that is, with mtime not larger than a's). -/
def insertByMtime (a : RecentFileInfo) :
    List RecentFileInfo → List RecentFileInfo
  | [] => [a]
  | b :: l => if sortFunc a b ≤ 0 then a :: b :: l else b :: insertByMtime a l

/-- Model of recentFiles.sort(sortFunc).  Array.prototype.sort is
specified to be stable, and with the comparator sortFunc an element a
precedes b in the result exactly when sortFunc orders a strictly before
b, or they tie and a came first; this insertion sort with the non-strict
relation sortFunc a b ≤ 0 produces exactly that unique stable result. -/
def jsSortByMtime : List RecentFileInfo → List RecentFileInfo
  | [] => []
  | a :: l => insertByMtime a (jsSortByMtime l)

/-- Model of Array.prototype.slice(0, e) for an integer end argument e:
a negative e counts from the end of the array (the result keeps
max(length + e, 0) elements), a non-negative e keeps min(e, length)
elements. -/
def jsSliceFromZero (l : List RecentFileInfo) (e : Int) : List RecentFileInfo :=
  if e < 0 then l.take ((l.length : Int) + e).toNat else l.take e.toNat

/-- Model of the JS expression this.data.maxLength || defaultMaxLength:
null and 0 are falsy and yield the default 40; every other number,
negative numbers included, is truthy and is returned unchanged. -/
def maxLengthOrDefault (ml : Option Int) : Int :=
  match ml with
  | none => defaultMaxLength
  | some v => if v = 0 then defaultMaxLength else v

/-- Mirror of RecentFilesListView.updateData: map the full vault
enumeration to RecentFileInfo records (the enumeration parameter is that
mapped list), sort with sortFunc, slice to maxLength || defaultMaxLength,
store the result in data.recentFiles, and save.  Note that it applies no
exclusion filtering. -/
def updateData (d : RecentFilesData) (enumeration : List RecentFileInfo) :
    RecentFilesData :=
  { d with
    recentFiles :=
      jsSliceFromZero (jsSortByMtime enumeration) (maxLengthOrDefault d.maxLength) }

/-- Result of an event handler of the view: the data afterwards, whether
a fresh full vault enumeration was requested, whether a save was
triggered, and whether the view was redrawn. -/
structure EditResult where
  data : RecentFilesData
  enumerated : Bool
  saved : Bool
  redrawn : Bool
deriving DecidableEq, Repr

/-- Mirror of RecentFilesListView.update, the editor-change handler, in
the case where the edited editor has an underlying file with path p: if
recentFiles is non-empty and its first entry has path p, return without
doing anything; otherwise run updateData on a fresh enumeration (which
saves) and redraw. -/
def update (d : RecentFilesData) (enumeration : List RecentFileInfo)
    (p : String) : EditResult :=
  match d.recentFiles with
  | first :: _ =>
    if first.path = p then ⟨d, false, false, false⟩
    else ⟨updateData d enumeration, true, true, true⟩
  | [] => ⟨updateData d enumeration, true, true, true⟩

/-- Mirror of the file-open handler registered in
RecentFilesListView.load: the workspace file-open event is wired to
this.redraw, which re-renders from the current data and neither
enumerates, nor mutates the data, nor saves. -/
def handleFileOpen (d : RecentFilesData) : EditResult :=
  ⟨d, false, false, true⟩

/-- Mirror of RecentFilesPlugin.shouldAddFile.  regExpTest models the JS
regular-expression engine: none when new RegExp(pattern) throws (the TS
catch branch returns false for that pattern), some test for a compiled
pattern.  Empty pattern strings are filtered out first; the file is
added unless some remaining pattern matches its path. -/
def shouldAddFile (regExpTest : String → Option (String → Bool))
    (omittedPaths : List String) (file : FilePath) : Bool :=
  let patterns := omittedPaths.filter (fun path => path.length > 0)
  let fileMatchesRegex := fun (pattern : String) =>
    match regExpTest pattern with
    | some test => test file.path
    | none => false
  !(patterns.any fileMatchesRegex)

/-- Mirror of RecentFilesPlugin.pruneOmittedFiles: keep only the tracked
entries that shouldAddFile accepts under the current omittedPaths, then
save. -/
def pruneOmittedFiles (regExpTest : String → Option (String → Bool))
    (d : RecentFilesData) : RecentFilesData :=
  { d with
    recentFiles :=
      d.recentFiles.filter (fun f => shouldAddFile regExpTest d.omittedPaths f.toFilePath) }

/-- Mirror of RecentFilesPlugin.trimExtension: name.replace with the
regular expression that matches a final dot followed by one or more
characters none of which is a dot or a slash, anchored at the end of the
string; the match, when it exists, starts at the last dot and is removed. -/
def trimExtension (name : String) : String :=
  let rev := name.data.reverse
  let ext := rev.takeWhile (fun c => c != '.' && c != '/')
  match rev.drop ext.length with
  | '.' :: _ =>
    if ext.isEmpty then name
    else String.mk ((rev.drop (ext.length + 1)).reverse)
  | _ => name

/-- Mirror of RecentFilesPlugin.handleRename: Array.prototype.find
locates the first entry whose path is oldPath; when found its path
becomes the renamed file's new path and its basename becomes
trimExtension of the renamed file's name, in place; when not found
nothing happens.  newPath and newName are file.path and file.name of the
TAbstractFile argument. -/
def handleRename (files : List RecentFileInfo)
    (oldPath newPath newName : String) : List RecentFileInfo :=
  match files with
  | [] => []
  | f :: rest =>
    if f.path = oldPath then
      { f with path := newPath, basename := trimExtension newName } :: rest
    else f :: handleRename rest oldPath newPath newName

/-- Mirror of RecentFilesPlugin.handleDelete: filter out every entry
whose path is the deleted file's path; the Boolean records whether a
save (and redraw) was triggered, which the source decides by comparing
the length before and after. -/
def handleDelete (files : List RecentFileInfo) (path : String) :
    List RecentFileInfo × Bool :=
  let remaining := files.filter (fun f => f.path != path)
  (remaining, decide (files.length ≠ remaining.length))

/-- Result of RecentFilesListView.focusFile: the data afterwards, whether
a leaf opened the file, whether the cannot-find Notice was shown, and
whether save and redraw were triggered. -/
structure FocusResult where
  data : RecentFilesData
  opened : Bool
  noticed : Bool
  saved : Bool
  redrawn : Bool
deriving DecidableEq, Repr

/-- Mirror of RecentFilesListView.focusFile.  livePaths models the
vault: getAbstractFileByPath succeeds exactly on the paths in it.  When
the clicked entry's path resolves, a leaf opens it (pane and split
selection is host UI and not modelled beyond the opened flag); when it
does not, a Notice is shown, every entry with that path is filtered out
of recentFiles, and save and redraw are triggered. -/
def focusFile (livePaths : List String) (d : RecentFilesData)
    (file : RecentFileInfo) (shouldSplit : Bool) : FocusResult :=
  if file.path ∈ livePaths then
    { data := d, opened := true, noticed := false, saved := false, redrawn := false }
  else
    { data :=
        { d with recentFiles := d.recentFiles.filter (fun fp => fp.path != file.path) },
      opened := false, noticed := true, saved := true, redrawn := true }

/-- Wire form of the persisted record: every field is optional, matching
a JSON blob that may omit fields; maxLength distinguishes an absent
field (outer none) from an explicit null (some none). -/
structure StoredJson where
  recentFiles : Option (List RecentFileInfo)
  omittedPaths : Option (List String)
  maxLength : Option (Option Int)
  openType : Option String
deriving DecidableEq, Repr

/-- Mirror of RecentFilesPlugin.loadData: Object.assign(DEFAULT_DATA,
stored) keeps the default for every field the stored record lacks and
takes the stored value, null included, for every field it has; a missing
data file (super.loadData() returning null) leaves DEFAULT_DATA intact.
The subsequent console message about an unset maxLength is logging only
and changes no state. -/
def loadData : Option StoredJson → RecentFilesData
  | none => DEFAULT_DATA
  | some s =>
    { recentFiles := s.recentFiles.getD DEFAULT_DATA.recentFiles
      omittedPaths := s.omittedPaths.getD DEFAULT_DATA.omittedPaths
      maxLength := s.maxLength.getD DEFAULT_DATA.maxLength
      openType := s.openType.getD DEFAULT_DATA.openType }

/-- Mirror of RecentFilesPlugin.saveData: super.saveData(this.data)
serialises the in-memory record verbatim, every field present. -/
def saveData (d : RecentFilesData) : StoredJson :=
  { recentFiles := some d.recentFiles
    omittedPaths := some d.omittedPaths
    maxLength := some d.maxLength
    openType := some d.openType }

/-- Concrete instance of the regular-expression engine parameter for the
single pattern used in the failing input: the regex written as caret
daily slash matches exactly the strings that begin with the six
characters d a i l y slash, and every other pattern is treated as
failing to compile. -/
def dailyRegexTest : String → Option (String → Bool) := fun pattern =>
  if pattern = "^daily/" then
    some (fun s => List.isPrefixOf "daily/".data s.data)
  else none

/-! Helper lemmas. -/

/-- Inserting one element grows the length by one. -/
theorem length_insertByMtime (a : RecentFileInfo) (l : List RecentFileInfo) :
    (insertByMtime a l).length = l.length + 1 := by
  induction l with
  | nil => rfl
  | cons b rest ih =>
    by_cases h : sortFunc a b ≤ 0 <;> simp [insertByMtime, h, ih]

/-- The stable sort is a permutation in particular of the same length. -/
theorem length_jsSortByMtime (l : List RecentFileInfo) :
    (jsSortByMtime l).length = l.length := by
  induction l with
  | nil => rfl
  | cons a rest ih => simp [jsSortByMtime, length_insertByMtime, ih]

/-- Evaluation of the match on the modelled RegExp outcome: the branch is
true exactly when the pattern compiled and its test accepts the string. -/
theorem regexMatchBranch_eq_true (o : Option (String → Bool)) (s : String) :
    (match o with
      | some test => test s
      | none => false) = true ↔ ∃ test, o = some test ∧ test s = true := by
  cases o with
  | none => simp
  | some t => simp

/-! Theorems for the claims. -/

/-- C9: recomputeAll is idempotent: running updateData twice on the same
enumeration with the policy unchanged gives the same state as running it
once, because updateData rebuilds recentFiles purely from the
enumeration and maxLength and touches no other field. -/
theorem C9_recomputeAll_idempotent (d : RecentFilesData)
    (enumeration : List RecentFileInfo) :
    updateData (updateData d enumeration) enumeration = updateData d enumeration := rfl

/-- C4: shouldAddFile (the isAllowed check) returns false exactly when
some non-empty pattern of omittedPaths compiles and matches the path of
the file; empty patterns are filtered out beforehand, a pattern on which
the RegExp constructor throws contributes false for that pattern only,
and evaluation of the remaining patterns continues; the function is
total, so it never throws. -/
theorem C4_isAllowed_false_iff (regExpTest : String → Option (String → Bool))
    (omittedPaths : List String) (file : FilePath) :
    shouldAddFile regExpTest omittedPaths file = false
      ↔ ∃ pattern, pattern ∈ omittedPaths ∧ 0 < pattern.length
          ∧ ∃ test, regExpTest pattern = some test ∧ test file.path = true := by
  simp only [shouldAddFile, Bool.not_eq_false', List.any_eq_true,
    List.mem_filter, regexMatchBranch_eq_true, decide_eq_true_eq, gt_iff_lt,
    and_assoc]

/-- C6: handleDelete keeps, in order, exactly the entries whose path is
not the deleted path, and its save flag is set exactly when the list
actually changed: the source compares lengths, and for a filtered list
equal length is equivalent to equality. -/
theorem C6_delete_exact (files : List RecentFileInfo) (path : String) :
    ((handleDelete files path).1.Sublist files)
    ∧ (∀ f, f ∈ (handleDelete files path).1 ↔ f ∈ files ∧ f.path ≠ path)
    ∧ ((handleDelete files path).2 = true ↔ (handleDelete files path).1 ≠ files) := by
  refine ⟨List.filter_sublist files, ?_, ?_⟩
  · intro f
    simp [handleDelete, List.mem_filter, bne_iff_ne]
  · simp only [handleDelete, decide_eq_true_eq]
    constructor
    · intro hlen heq
      exact hlen (by rw [heq])
    · intro hne hlen
      exact hne ((List.filter_sublist files).eq_of_length hlen.symm)

/-- C10: pruneOmittedFiles keeps exactly the tracked entries, every field
intact and in their original relative order, whose path the current
policy allows, introduces no new entry, and is idempotent. -/
theorem C10_prune_exact (regExpTest : String → Option (String → Bool))
    (d : RecentFilesData) :
    ((pruneOmittedFiles regExpTest d).recentFiles.Sublist d.recentFiles)
    ∧ (∀ f, f ∈ (pruneOmittedFiles regExpTest d).recentFiles
        ↔ f ∈ d.recentFiles ∧ shouldAddFile regExpTest d.omittedPaths f.toFilePath = true)
    ∧ pruneOmittedFiles regExpTest (pruneOmittedFiles regExpTest d)
        = pruneOmittedFiles regExpTest d := by
  refine ⟨List.filter_sublist d.recentFiles, ?_, ?_⟩
  · intro f
    simp [pruneOmittedFiles, List.mem_filter]
  · simp [pruneOmittedFiles, List.filter_filter]

/-- C1: evaluation of the recompute path at the failing input: with the
omitted pattern list ["^daily/"] the path daily/2024-01-01.md is
rejected by shouldAddFile, yet updateData — which never consults
shouldAddFile — still places it in the recomputed recentFiles list. -/
theorem C1_recomputeAll_keeps_excluded_path :
    shouldAddFile dailyRegexTest ["^daily/"] ⟨"daily/2024-01-01.md", "2024-01-01"⟩ = false
    ∧ (updateData { DEFAULT_DATA with omittedPaths := ["^daily/"] }
          [⟨"daily/2024-01-01.md", "2024-01-01", 1⟩]).recentFiles
        = [⟨"daily/2024-01-01.md", "2024-01-01", 1⟩] := by
  constructor <;> decide

/-- C2 counterexample: the file-open handler is wired to redraw, which
never triggers an enumeration or recompute; with the initial empty list
the short-circuit condition fails (items is empty), so the claim as
stated would demand a fresh enumeration, but none occurs and the data is
untouched. -/
theorem C2_open_handler_never_recomputes :
    DEFAULT_DATA.recentFiles = []
    ∧ (handleFileOpen DEFAULT_DATA).enumerated = false
    ∧ (handleFileOpen DEFAULT_DATA).data = DEFAULT_DATA
    ∧ (handleFileOpen DEFAULT_DATA).saved = false
    ∧ ¬ ((handleFileOpen DEFAULT_DATA).enumerated = true
          ↔ ¬ (∃ first rest, DEFAULT_DATA.recentFiles = first :: rest
                ∧ first.path = "a.md")) := by
  refine ⟨by decide, by decide, by decide, by decide, ?_⟩
  simp [handleFileOpen, DEFAULT_DATA]

/-- C2 amended: the editor-change handler enumerates and recomputes
exactly when it is not the case that recentFiles is non-empty with its
first entry at the edited path; in the short-circuit case it leaves the
data untouched, enumerates nothing, saves nothing and does not redraw;
in the recompute case it replaces the data with updateData of a fresh
enumeration, saves and redraws.  The file-open handler only redraws:
it never enumerates, never recomputes and never saves. -/
theorem C2_edit_recompute_iff (d : RecentFilesData)
    (enumeration : List RecentFileInfo) (p : String) :
    ((update d enumeration p).enumerated = true
      ↔ ¬ (∃ first rest, d.recentFiles = first :: rest ∧ first.path = p))
    ∧ ((update d enumeration p).enumerated = false →
        update d enumeration p = ⟨d, false, false, false⟩)
    ∧ ((update d enumeration p).enumerated = true →
        update d enumeration p = ⟨updateData d enumeration, true, true, true⟩)
    ∧ handleFileOpen d = ⟨d, false, false, true⟩ := by
  match h : d.recentFiles with
  | [] =>
    refine ⟨?_, ?_, ?_, rfl⟩ <;> simp [update, h, handleFileOpen]
  | first :: rest =>
    by_cases hp : first.path = p
    · refine ⟨?_, ?_, ?_, rfl⟩ <;> simp [update, h, hp]
    · constructor
      · simp only [update, h, if_neg hp]
        simp only [List.cons.injEq, true_iff, iff_true]
        rintro ⟨f, r, ⟨hf, hr⟩, hfp⟩
        exact hp (hf ▸ hfp)
      · refine ⟨?_, ?_, rfl⟩ <;> simp [update, h, hp]

/-- C2 witness: on a list whose first entry is the edited path, the
editor-change handler short-circuits and leaves everything unchanged. -/
theorem C2_edit_recompute_iff_witness :
    update { DEFAULT_DATA with recentFiles := [⟨"a.md", "a", 1⟩] } [] "a.md"
      = ⟨{ DEFAULT_DATA with recentFiles := [⟨"a.md", "a", 1⟩] }, false, false, false⟩ :=
  (C2_edit_recompute_iff { DEFAULT_DATA with recentFiles := [⟨"a.md", "a", 1⟩] }
    [] "a.md").2.1 (by decide)

/-- C3 counterexample: with maxLength = -1 (non-positive, hence claimed
to behave like 40) and an enumeration of two files, the recompute keeps
only one entry, because -1 is truthy in JS so slice(0, -1) drops the
last element, whereas taking the first 40 of the sorted enumeration
keeps both. -/
theorem C3_negative_maxLength_not_default :
    (updateData { DEFAULT_DATA with maxLength := some (-1) }
        [⟨"a.md", "a", 2⟩, ⟨"b.md", "b", 1⟩]).recentFiles
      = [⟨"a.md", "a", 2⟩]
    ∧ (jsSortByMtime [⟨"a.md", "a", 2⟩, ⟨"b.md", "b", 1⟩]).take 40
      = [⟨"a.md", "a", 2⟩, ⟨"b.md", "b", 1⟩]
    ∧ (updateData { DEFAULT_DATA with maxLength := some (-1) }
          [⟨"a.md", "a", 2⟩, ⟨"b.md", "b", 1⟩]).recentFiles
        ≠ (jsSortByMtime [⟨"a.md", "a", 2⟩, ⟨"b.md", "b", 1⟩]).take 40 := by
  refine ⟨by decide, by decide, by decide⟩

/-- C3 amended: an unset maxLength and an explicit 0 are falsy in the JS
truncation expression and behave exactly like the default 40, but a
negative maxLength m is truthy and slice(0, m) instead keeps all but the
last |m| entries of the sorted enumeration. -/
theorem C3_truncation_default (d : RecentFilesData)
    (enumeration : List RecentFileInfo) :
    ((d.maxLength = none ∨ d.maxLength = some 0) →
      (updateData d enumeration).recentFiles = (jsSortByMtime enumeration).take 40)
    ∧ (∀ m : Int, d.maxLength = some m → m < 0 →
      (updateData d enumeration).recentFiles
        = (jsSortByMtime enumeration).take (((enumeration.length : Int) + m).toNat)) := by
  constructor
  · intro h
    rcases h with h | h <;>
      simp [updateData, h, maxLengthOrDefault, defaultMaxLength, jsSliceFromZero]
  · intro m hm hneg
    have hne : m ≠ 0 := by omega
    simp [updateData, hm, maxLengthOrDefault, hne, jsSliceFromZero, hneg,
      length_jsSortByMtime]

/-- C3 witness: with the default data (maxLength unset) and an empty
enumeration the recompute equals taking the first 40 of the sorted
enumeration. -/
theorem C3_truncation_default_witness :
    (updateData DEFAULT_DATA []).recentFiles = (jsSortByMtime []).take 40 :=
  (C3_truncation_default DEFAULT_DATA []).1 (Or.inl rfl)

/-- When no entry carries the old path, the rename walk changes nothing. -/
theorem handleRename_not_found (files : List RecentFileInfo)
    (oldPath newPath newName : String)
    (h : ∀ f ∈ files, f.path ≠ oldPath) :
    handleRename files oldPath newPath newName = files := by
  induction files with
  | nil => rfl
  | cons f rest ih =>
    have hf : f.path ≠ oldPath := h f (List.mem_cons_self f rest)
    simp [handleRename, hf, ih (fun g hg => h g (List.mem_cons_of_mem f hg))]

/-- The rename walk rewrites exactly the first entry carrying the old
path, keeping its mtime and its position and every other entry intact. -/
theorem handleRename_found (pre : List RecentFileInfo) (f : RecentFileInfo)
    (post : List RecentFileInfo) (oldPath newPath newName : String)
    (hf : f.path = oldPath) (hpre : ∀ g ∈ pre, g.path ≠ oldPath) :
    handleRename (pre ++ f :: post) oldPath newPath newName
      = pre ++ { f with path := newPath, basename := trimExtension newName } :: post := by
  induction pre with
  | nil => simp [handleRename, hf]
  | cons g rest ih =>
    have hg : g.path ≠ oldPath := hpre g (List.mem_cons_self g rest)
    simp [handleRename, hg, ih (fun x hx => hpre x (List.mem_cons_of_mem g hx))]

/-- C5: handleRename updates the (first) entry whose path is oldPath in
place: its path becomes the new path and its basename the trimmed new
name while its mtime, its position, and all entries before and after it
are untouched; when no entry carries oldPath the list is unchanged, so a
never-tracked item does not become tracked. -/
theorem C5_rename_in_place (files : List RecentFileInfo)
    (oldPath newPath newName : String) :
    ((∀ f ∈ files, f.path ≠ oldPath) →
      handleRename files oldPath newPath newName = files)
    ∧ (∀ pre f post, files = pre ++ f :: post → f.path = oldPath →
        (∀ g ∈ pre, g.path ≠ oldPath) →
        handleRename files oldPath newPath newName
          = pre ++ { f with path := newPath, basename := trimExtension newName } :: post) := by
  constructor
  · exact handleRename_not_found files oldPath newPath newName
  · intro pre f post hsplit hf hpre
    rw [hsplit]
    exact handleRename_found pre f post oldPath newPath newName hf hpre

/-- C5 witness: renaming a.md to b.md rewrites the tracked entry in
place, with the basename trimmed from the new file name and the original
mtime kept. -/
theorem C5_rename_in_place_witness :
    handleRename [⟨"a.md", "a", 5⟩] "a.md" "b.md" "b.md" = [⟨"b.md", "b", 5⟩] := by
  rw [(C5_rename_in_place [⟨"a.md", "a", 5⟩] "a.md" "b.md" "b.md").2
    [] ⟨"a.md", "a", 5⟩ [] rfl rfl (by simp)]
  decide

/-- C7: activating an entry whose path is absent from the live file set
shows the Notice, removes from recentFiles exactly the entries with that
path (the remaining entries keep their order and all their fields),
leaves the other data fields untouched, triggers a save and a redraw,
and does not open anything; the function is total, so nothing throws. -/
theorem C7_activate_not_found (livePaths : List String) (d : RecentFilesData)
    (file : RecentFileInfo) (shouldSplit : Bool)
    (h : file.path ∉ livePaths) :
    (focusFile livePaths d file shouldSplit).noticed = true
    ∧ (focusFile livePaths d file shouldSplit).saved = true
    ∧ (focusFile livePaths d file shouldSplit).redrawn = true
    ∧ (focusFile livePaths d file shouldSplit).opened = false
    ∧ ((focusFile livePaths d file shouldSplit).data.recentFiles.Sublist d.recentFiles)
    ∧ (∀ g, g ∈ (focusFile livePaths d file shouldSplit).data.recentFiles
        ↔ g ∈ d.recentFiles ∧ g.path ≠ file.path)
    ∧ (focusFile livePaths d file shouldSplit).data.omittedPaths = d.omittedPaths
    ∧ (focusFile livePaths d file shouldSplit).data.maxLength = d.maxLength
    ∧ (focusFile livePaths d file shouldSplit).data.openType = d.openType := by
  refine ⟨?_, ?_, ?_, ?_, ?_, ?_, ?_, ?_, ?_⟩ <;>
    simp [focusFile, h, List.mem_filter, bne_iff_ne, List.filter_sublist]

/-- C7 witness: clicking the stale entry a.md while the vault only holds
b.md removes it and reports the not-found Notice. -/
theorem C7_activate_not_found_witness :
    (focusFile ["b.md"] { DEFAULT_DATA with recentFiles := [⟨"a.md", "a", 1⟩] }
        ⟨"a.md", "a", 1⟩ false).noticed = true
    ∧ (focusFile ["b.md"] { DEFAULT_DATA with recentFiles := [⟨"a.md", "a", 1⟩] }
        ⟨"a.md", "a", 1⟩ false).saved = true :=
  ⟨(C7_activate_not_found ["b.md"] { DEFAULT_DATA with recentFiles := [⟨"a.md", "a", 1⟩] }
      ⟨"a.md", "a", 1⟩ false (by decide)).1,
   (C7_activate_not_found ["b.md"] { DEFAULT_DATA with recentFiles := [⟨"a.md", "a", 1⟩] }
      ⟨"a.md", "a", 1⟩ false (by decide)).2.1⟩

/-- C8: when the persisted record leaves maxLength unset (field absent
or an explicit null), loading keeps it unset in memory, the default 40
is applied only inside the truncation expression, and saving — directly
after load or after any recompute — writes the unset value back, never
the default 40. -/
theorem C8_maxLength_default_read_only (s : StoredJson)
    (h : s.maxLength = none ∨ s.maxLength = some none) :
    (loadData (some s)).maxLength = none
    ∧ maxLengthOrDefault (loadData (some s)).maxLength = defaultMaxLength
    ∧ (saveData (loadData (some s))).maxLength = some none
    ∧ (saveData (loadData (some s))).maxLength ≠ some (some 40)
    ∧ (∀ enumeration,
        (updateData (loadData (some s)) enumeration).maxLength = none
        ∧ (saveData (updateData (loadData (some s)) enumeration)).maxLength = some none) := by
  rcases h with h | h <;>
    simp [loadData, saveData, updateData, maxLengthOrDefault, DEFAULT_DATA, h]

/-- C8 witness: a wholly empty persisted record loads with maxLength
unset and saves it back unset. -/
theorem C8_maxLength_default_read_only_witness :
    (loadData (some ⟨none, none, none, none⟩)).maxLength = none
    ∧ (saveData (loadData (some ⟨none, none, none, none⟩))).maxLength = some none :=
  ⟨(C8_maxLength_default_read_only ⟨none, none, none, none⟩ (Or.inl rfl)).1,
   (C8_maxLength_default_read_only ⟨none, none, none, none⟩ (Or.inl rfl)).2.2.1⟩

end RecentFiles
